import Mathlib

/-!
Verification development for the SOPS wrapper
(`scripts/python/sops/sops_wrapper.py`): a shallow embedding of its
change detector (`_should_encrypt` / `_decrypt_to_temp`), operation
runner (`_encrypt_file`, `_decrypt_file`, `_updatekeys_file`) and format
converter (`_yaml_to_env_format`), together with theorems settling the
specification's claims about them.

Modelling conventions:
  * Files seen by the change detector are abstracted to their metadata:
    existence, byte size, modification time, whether their content parses
    as YAML, and a content hash (`Nat` stands for the SHA-256 digest;
    equal hash means equal content).  Read errors (`OSError` in
    `_get_file_hash`) are not modelled: reads of existing files succeed.
  * The external `sops` binary is an oracle recorded in the environment
    structures: a field holds the outcome its subprocess call would have
    (`none` = non-zero exit or timeout, `some` = exit 0 with that output).
  * Filesystem effects of the operation runner are made explicit: an
    operation takes the prior content at its target path
    (`Option String`, `none` = absent) and returns it updated alongside
    the boolean result.  A file's `st_size > 0` check is modelled as the
    content string being nonempty.
-/

/-- Metadata of an existing file as the change detector observes it:
byte size, modification time, whether the bytes parse as YAML, and a
content hash (equal content iff equal hash). -/
structure FState where
  size : Nat
  mtime : Nat
  parses : Bool
  hash : Nat
deriving DecidableEq, Repr

/-- A path's state: `none` when no file exists there. -/
abbrev FileAt := Option FState

/-- Embeds `SOPSWrapper._is_file_not_empty`: the file exists and
`st_size > 0`. -/
def is_file_not_empty : FileAt → Bool
  | none => false
  | some st => decide (st.size > 0)

/-- Embeds `SOPSWrapper._is_valid_yaml`: non-empty and the content
parses as YAML (`yaml.safe_load` succeeding is the `parses` field). -/
def is_valid_yaml (f : FileAt) : Bool :=
  if is_file_not_empty f = false then false
  else match f with
    | none => false
    | some st => st.parses

/-- Embeds `SOPSWrapper._get_file_hash`: `None` for a missing file,
otherwise the SHA-256 digest of the content (read errors not modelled). -/
def get_file_hash : FileAt → Option Nat
  | none => none
  | some st => some st.hash

/-- Embeds `Path.stat().st_mtime`; only consulted on files the guards
have already shown to exist, so the default for `none` is never reached
on the paths the detector takes. -/
def stat_mtime (f : FileAt) : Nat :=
  match f with
  | none => 0
  | some st => st.mtime

/-- Environment of one `_should_encrypt(dec_file, enc_file)` call:
the two file states plus the outcomes of the external effects the call
may perform.  `decryptOut` is the `sops -d` comparison call: `some h`
means exit 0 with output hashing to `h`; `none` means non-zero exit or
timeout.  `tempCreateOk` is whether `tempfile.NamedTemporaryFile`
succeeds, `unlinkRaises` whether `temp_file.unlink()` raises `OSError`. -/
structure DetectEnv where
  dec : FileAt
  enc : FileAt
  tempCreateOk : Bool
  decryptOut : Option Nat
  unlinkRaises : Bool
deriving DecidableEq, Repr

/-- Embeds `SOPSWrapper._decrypt_to_temp`, instrumented with its
filesystem effect.  First component: the Python return value (`some h` =
the temp path, whose written content hashes to `h`; `none` = the
function's `return None`, reached when temp creation fails, the tool
exits non-zero, or any exception is swallowed by its `except Exception`).
Second component: whether the `NamedTemporaryFile(delete=False)` scratch
file is on disk when the call returns — the function itself never
deletes it. -/
def decrypt_to_temp (e : DetectEnv) : Option Nat × Bool :=
  if e.tempCreateOk = false then (none, false)
  else match e.decryptOut with
    | none => (none, true)
    | some h => (some h, true)

/-- Embeds `SOPSWrapper._should_encrypt`, instrumented with the scratch
file's fate.  First component: the returned `(should_encrypt, reason)`
pair, branch for branch from the source.  Second component: whether the
scratch file of `_decrypt_to_temp` remains on disk after the return
(`temp_file.unlink()` runs only on the path where `_decrypt_to_temp`
returned a path and the unlink does not raise). -/
def should_encrypt_st (e : DetectEnv) : (Bool × String) × Bool :=
  if is_valid_yaml e.dec = false then
    ((false, "source file is empty or invalid YAML"), false)
  else if e.enc.isSome = false then
    ((true, "no encrypted file exists"), false)
  else if is_file_not_empty e.enc = false then
    ((true, "encrypted file is empty"), false)
  else if stat_mtime e.dec > stat_mtime e.enc then
    ((true, "source file is newer"), false)
  else
    let dec_hash := get_file_hash e.dec
    match decrypt_to_temp e with
    | (some h, _) =>
      if e.unlinkRaises then
        ((true, "unable to verify encrypted content"), true)
      else if dec_hash ≠ some h then
        ((true, "content has changed"), false)
      else
        ((false, "no changes detected"), false)
    | (none, onDisk) => ((false, "no changes detected"), onDisk)

/-- The `(should_encrypt, reason)` decision, as the Python function
returns it. -/
def should_encrypt (e : DetectEnv) : Bool × String :=
  (should_encrypt_st e).1

/-- Whether a scratch decryption file is left on disk after
`_should_encrypt` returns. -/
def scratch_remains (e : DetectEnv) : Bool :=
  (should_encrypt_st e).2

/-- Whether the content at a path is a zero-byte file (`none` = no file
there, so not a zero-byte file). -/
def is_zero_byte : Option String → Bool
  | none => false
  | some s => s == ""

/-- Environment of one `_encrypt_file(dec_file, enc_file, update_keys)`
call.  `toolOut` is the `sops -e` subprocess outcome: `some out` = exit 0
with stdout `out`; `none` = non-zero exit or timeout.  `ukExit` and
`ukContent` describe the optional `sops updatekeys` call: whether it
exits 0, and the target file's content after its in-place mutation when
it does. -/
structure EncryptEnv where
  toolOut : Option String
  updateKeys : Bool
  ukExit : Bool
  ukContent : String

/-- Embeds `SOPSWrapper._updatekeys_file`, explicit about the target
file.  Takes the content at the encrypted path and returns the boolean
result with the updated content: a non-zero exit (or timeout) leaves the
file as the tool left it (modelled unchanged) and fails; on exit 0 the
file now holds `ukContent`, and an empty result fails the call but is
not deleted (the source only logs and returns `False`). -/
def updatekeys_file (ukExit : Bool) (ukContent : String)
    (target : Option String) : Bool × Option String :=
  if ukExit = false then (false, target)
  else if ukContent == "" then (false, some ukContent)
  else (true, some ukContent)

/-- Embeds `SOPSWrapper._encrypt_file`, explicit about the target file.
On a non-zero exit or timeout of `sops -e` nothing is written and the
call fails.  On exit 0 stdout is written to the encrypted path; if that
artifact is empty it is unlinked and the call fails.  Otherwise, when
`update_keys` is set, `_updatekeys_file` runs on the written file and the
call returns `True` whether or not it succeeded (the source logs a
warning and still returns `True`). -/
def encrypt_file (e : EncryptEnv) (target : Option String) :
    Bool × Option String :=
  match e.toolOut with
  | none => (false, target)
  | some out =>
    if out == "" then (false, none)
    else if e.updateKeys then
      (true, (updatekeys_file e.ukExit e.ukContent (some out)).2)
    else (true, some out)

/-- Embeds `SOPSWrapper._decrypt_file`, explicit about the target file.
`valid` is the YAML-parse oracle (`yaml.safe_load` succeeding on a
string); `toolOut` the `sops -d` outcome.  On exit 0 stdout is written
to the decrypted path and re-validated with `_is_valid_yaml` (non-empty
and parses); an invalid artifact is unlinked and the call fails. -/
def decrypt_file (valid : String → Bool) (toolOut : Option String)
    (target : Option String) : Bool × Option String :=
  match toolOut with
  | none => (false, target)
  | some out =>
    if out == "" then (false, none)
    else if valid out = false then (false, none)
    else (true, some out)

/-- A parsed YAML document as `yaml.safe_load` hands it to
`_yaml_to_env_format`: `None`, booleans, integers, strings, lists and
string-keyed mappings in document order.  Floats are not modelled (no
claim concerns them; they share the scalar branch with `str`/`int`/
`bool`). -/
inductive Yaml where
  | null
  | bool (b : Bool)
  | int (n : Int)
  | str (s : String)
  | list (xs : List Yaml)
  | dict (kvs : List (String × Yaml))

/-- Python's `isinstance(value, dict)`. -/
def Yaml.isDict : Yaml → Bool
  | .dict _ => true
  | _ => false

/-- Hexadecimal digit in lowercase, as Python's `json` module emits. -/
def hex_digit (n : Nat) : Char :=
  if n < 10 then Char.ofNat (48 + n) else Char.ofNat (87 + n % 6)

/-- Four-digit lowercase hexadecimal rendering for a `\uXXXX` escape. -/
def hex4 (n : Nat) : String :=
  String.mk [hex_digit (n / 4096 % 16), hex_digit (n / 256 % 16),
             hex_digit (n / 16 % 16), hex_digit (n % 16)]

/-- One character of a JSON string under `json.dumps` defaults
(`ensure_ascii=True`): short escapes for quote, backslash and the common
control characters, `\u00XX` for the remaining control characters,
`\uXXXX` (with surrogate pairs beyond the BMP) for non-ASCII. -/
def json_escape_char (c : Char) : String :=
  if c = Char.ofNat 34 then "\\\""
  else if c = Char.ofNat 92 then "\\\\"
  else if c = Char.ofNat 10 then "\\n"
  else if c = Char.ofNat 13 then "\\r"
  else if c = Char.ofNat 9 then "\\t"
  else if c = Char.ofNat 8 then "\\b"
  else if c = Char.ofNat 12 then "\\f"
  else if c.toNat < 32 then "\\u" ++ hex4 c.toNat
  else if c.toNat < 127 then String.singleton c
  else if c.toNat ≤ 65535 then "\\u" ++ hex4 c.toNat
  else
    let v := c.toNat - 65536
    "\\u" ++ hex4 (55296 + v / 1024) ++ "\\u" ++ hex4 (56320 + v % 1024)

/-- A JSON string literal for `s` under `json.dumps` defaults. -/
def json_quote (s : String) : String :=
  "\"" ++ String.join (s.data.map json_escape_char) ++ "\""

mutual

/-- Embeds `json.dumps(value)` with default arguments, as the source
calls it on list and dict values. -/
def jsonDumps : Yaml → String
  | .null => "null"
  | .bool b => if b then "true" else "false"
  | .int n => toString n
  | .str s => json_quote s
  | .list xs => "[" ++ jsonDumpsList xs ++ "]"
  | .dict kvs => "\x7b" ++ jsonDumpsDict kvs ++ "\x7d"

/-- Elements of a JSON array, joined by the default `", "` separator. -/
def jsonDumpsList : List Yaml → String
  | [] => ""
  | [x] => jsonDumps x
  | x :: y :: xs => jsonDumps x ++ ", " ++ jsonDumpsList (y :: xs)

/-- Entries of a JSON object, `key: value` with the default separators. -/
def jsonDumpsDict : List (String × Yaml) → String
  | [] => ""
  | [(k, v)] => json_quote k ++ ": " ++ jsonDumps v
  | (k, v) :: e :: kvs =>
      json_quote k ++ ": " ++ jsonDumps v ++ ", " ++ jsonDumpsDict (e :: kvs)

end

/-- Python's `str(value)` on the value types the converter meets:
`str`/`int`/`bool` scalars stringify directly (`True`/`False` for
booleans), lists and dicts go through `json.dumps`, and anything else
(here `None`) falls to the `str(value)` else-branch. -/
def env_value : Yaml → String
  | .str s => s
  | .int n => toString n
  | .bool b => if b then "True" else "False"
  | .list xs => jsonDumps (.list xs)
  | .dict kvs => jsonDumps (.dict kvs)
  | .null => "None"

/-- The characters of the source's special-character list
`['"', "'", "$", "`", "\\"]`. -/
def special_chars : List Char :=
  [Char.ofNat 34, Char.ofNat 39, Char.ofNat 36, Char.ofNat 96, Char.ofNat 92]

/-- Python's `c in s` membership test, over the string's characters. -/
def str_has (s : String) (c : Char) : Bool :=
  s.data.contains c

/-- Embeds the quoting step: wrap the value in double quotes when it
contains a space (`" " in env_value`) or any character of
`special_chars`; the quote characters themselves are not escaped. -/
def quote_value (v : String) : String :=
  if str_has v (Char.ofNat 32) || special_chars.any (fun c => str_has v c) then
    "\"" ++ v ++ "\""
  else v

/-- Python's `str.upper()`, modelled for ASCII keys (every key the
claims mention is ASCII; non-ASCII uppercasing is not modelled). -/
def py_upper (s : String) : String :=
  String.mk (s.data.map Char.toUpper)

/-- One `KEY=value` output line for one mapping entry. -/
def env_line (k : String) (v : Yaml) : String :=
  py_upper k ++ "=" ++ quote_value (env_value v)

/-- Embeds the section lookup `data.get(section, {})` followed by the
`isinstance(section_data, dict)` fallback, instrumented with whether the
warning (and fallback to the whole document) fired.  `data` is the
already-checked top-level dict. -/
def resolve_section (data : Yaml) (sect : String) : Yaml × Bool :=
  match data with
  | .dict kvs =>
    let section_data := match kvs.lookup sect with
      | some v => v
      | none => .dict []
    if section_data.isDict then (section_data, false) else (data, true)
  | _ => (data, false)

/-- Body of `_yaml_to_env_format` inside its `try`: the top-level
`isinstance(data, dict)` check raising
`ValueError("YAML content must be a dictionary")`, the section
resolution, and the per-entry `KEY=value` lines joined by newlines.
Parsing (`yaml.safe_load`) is modelled upstream: the argument is the
parsed document. -/
def yaml_to_env_body (data : Yaml) (sect : String) : Except String String :=
  if data.isDict = false then
    .error "YAML content must be a dictionary"
  else
    match (resolve_section data sect).1 with
    | .dict entries =>
      .ok (String.intercalate "\n" (entries.map (fun kv => env_line kv.1 kv.2)))
    | _ => .error "YAML content must be a dictionary"

/-- Embeds `SOPSWrapper._yaml_to_env_format` on a parsed document: the
body plus the function's blanket `except Exception` handler, which
re-raises any `ValueError` from the body wrapped as
`ValueError(f"Error converting YAML to env format: ...")`. -/
def yaml_to_env_format (data : Yaml) (sect : String) : Except String String :=
  match yaml_to_env_body data sect with
  | .ok r => .ok r
  | .error e => .error ("Error converting YAML to env format: " ++ e)

/-- Claim C1: the claim says that when the comparison decryption fails,
`_should_encrypt` returns `(True, "unable to verify encrypted content")`.
The code does not: `_decrypt_to_temp` catches every exception internally
and returns `None`, and the `None` branch of `_should_encrypt` falls
through to `(False, "no changes detected")`, so a pair whose ciphertext
cannot be decrypted is silently skipped.  This theorem evaluates the
embedding at such a failing input: plaintext valid and not newer,
ciphertext present and non-empty, `sops -d` failing
(`decryptOut = none`). -/
theorem c1_comparison_decrypt_failure_is_skipped :
    is_valid_yaml (some ⟨4, 5, true, 7⟩ : FileAt) = true ∧
    is_file_not_empty (some ⟨9, 5, true, 0⟩ : FileAt) = true ∧
    decrypt_to_temp ⟨some ⟨4, 5, true, 7⟩, some ⟨9, 5, true, 0⟩, true, none, false⟩
      = (none, true) ∧
    should_encrypt ⟨some ⟨4, 5, true, 7⟩, some ⟨9, 5, true, 0⟩, true, none, false⟩
      = (false, "no changes detected") ∧
    should_encrypt ⟨some ⟨4, 5, true, 7⟩, some ⟨9, 5, true, 0⟩, true, none, false⟩
      ≠ (true, "unable to verify encrypted content") := by
  decide

/-- Claim C2, counterexample: the claim quantifies over every
well-formed plaintext whose ciphertext decrypts to hash-equal content,
but omits the earlier modification-time rule.  At a pair where the
plaintext's mtime (10) is strictly newer than the ciphertext's (3) and
the round trip nevertheless succeeds with equal hashes (both 5), decide
returns `(True, "source file is newer")`, not
`(False, "no changes detected")`. -/
theorem c2_counterexample :
    is_valid_yaml (some ⟨1, 10, true, 5⟩ : FileAt) = true ∧
    (decrypt_to_temp ⟨some ⟨1, 10, true, 5⟩, some ⟨1, 3, true, 9⟩, true, some 5, false⟩).1
      = some 5 ∧
    get_file_hash (some ⟨1, 10, true, 5⟩ : FileAt) = some 5 ∧
    should_encrypt ⟨some ⟨1, 10, true, 5⟩, some ⟨1, 3, true, 9⟩, true, some 5, false⟩
      = (true, "source file is newer") ∧
    should_encrypt ⟨some ⟨1, 10, true, 5⟩, some ⟨1, 3, true, 9⟩, true, some 5, false⟩
      ≠ (false, "no changes detected") := by
  decide

/-- Claim C2 as amended: for a well-formed plaintext and a ciphertext
that is present, non-empty and not older than the plaintext, if the
comparison decryption succeeds, its cleanup does not raise, and the
decrypted content's hash equals the plaintext's, then decide returns
`(False, "no changes detected")`. -/
theorem c2_amended_no_changes (e : DetectEnv) (h : Nat)
    (h1 : is_valid_yaml e.dec = true)
    (h2 : e.enc.isSome = true)
    (h3 : is_file_not_empty e.enc = true)
    (h4 : ¬ stat_mtime e.dec > stat_mtime e.enc)
    (h5 : e.unlinkRaises = false)
    (h6 : (decrypt_to_temp e).1 = some h)
    (h7 : get_file_hash e.dec = some h) :
    should_encrypt e = (false, "no changes detected") := by
  unfold should_encrypt should_encrypt_st
  rcases hdt : decrypt_to_temp e with ⟨r, b⟩
  rw [hdt] at h6
  simp only at h6
  subst h6
  simp [h1, h2, h3, h4, h5, h7, hdt]

/-- Witness for the amended C2 at a concrete pair: equal hashes (5),
equal mtimes (2), decryption succeeding. -/
theorem c2_amended_witness :
    should_encrypt ⟨some ⟨3, 2, true, 5⟩, some ⟨8, 2, true, 0⟩, true, some 5, false⟩
      = (false, "no changes detected") :=
  c2_amended_no_changes
    ⟨some ⟨3, 2, true, 5⟩, some ⟨8, 2, true, 0⟩, true, some 5, false⟩ 5
    (by decide) (by decide) (by decide) (by decide) (by decide) (by decide)
    (by decide)

/-- Claim C3, counterexample: the claim quantifies over all files with a
missing encrypted counterpart, but the well-formedness rule runs first.
For an existing but empty plaintext (size 0) with no ciphertext, decide
returns `(False, "source file is empty or invalid YAML")`, not
`(True, "no encrypted file exists")` — the behavior the repository's own
test for an empty `.dec.yaml` pins down. -/
theorem c3_counterexample :
    (⟨some ⟨0, 0, true, 0⟩, none, true, none, false⟩ : DetectEnv).enc = none ∧
    should_encrypt ⟨some ⟨0, 0, true, 0⟩, none, true, none, false⟩
      = (false, "source file is empty or invalid YAML") ∧
    should_encrypt ⟨some ⟨0, 0, true, 0⟩, none, true, none, false⟩
      ≠ (true, "no encrypted file exists") := by
  decide

/-- Claim C3 as amended: for every well-formed (valid-YAML) plaintext
whose encrypted counterpart does not exist, decide returns
`(True, "no encrypted file exists")`. -/
theorem c3_amended_missing_ciphertext (e : DetectEnv)
    (h1 : is_valid_yaml e.dec = true) (h2 : e.enc = none) :
    should_encrypt e = (true, "no encrypted file exists") := by
  unfold should_encrypt should_encrypt_st
  simp [h1, h2]

/-- Witness for the amended C3 at a concrete pair: a valid plaintext and
no encrypted file. -/
theorem c3_amended_missing_ciphertext_witness :
    should_encrypt ⟨some ⟨3, 2, true, 5⟩, none, true, none, false⟩
      = (true, "no encrypted file exists") :=
  c3_amended_missing_ciphertext
    ⟨some ⟨3, 2, true, 5⟩, none, true, none, false⟩ (by decide) (by decide)

/-- Claim C4: the claim says the scratch decryption file is deleted on
every exit path.  The code deletes it only on the path where
`_decrypt_to_temp` returned a path: when the comparison decryption fails
(non-zero exit or timeout), the file already created by
`NamedTemporaryFile(delete=False)` is never unlinked and remains on
disk.  This theorem evaluates the instrumented embedding at such an
input: the call returns `(False, "no changes detected")` with the
scratch file still present. -/
theorem c4_scratch_file_leak :
    decrypt_to_temp ⟨some ⟨6, 4, true, 11⟩, some ⟨7, 4, true, 2⟩, true, none, false⟩
      = (none, true) ∧
    should_encrypt_st ⟨some ⟨6, 4, true, 11⟩, some ⟨7, 4, true, 2⟩, true, none, false⟩
      = ((false, "no changes detected"), true) ∧
    scratch_remains ⟨some ⟨6, 4, true, 11⟩, some ⟨7, 4, true, 2⟩, true, none, false⟩
      = true := by
  decide

/-- Claim C5: the claim says an absent section name falls back to
converting the entire document (with a warning).  The code's
`data.get(section, {})` defaults to `{}`, which passes the
`isinstance(section_data, dict)` test, so an absent section produces an
empty conversion with no fallback and no warning — contradicting the
code's own warning text "Section ... not found or not a dictionary".
This theorem evaluates the embedding at the failing input
`{other: 1}` with section `"act"`: the lookup misses, `resolve_section`
keeps the empty mapping with the warning flag unset, and the converter
emits the empty string instead of `OTHER=1`. -/
theorem c5_absent_section_no_fallback :
    List.lookup "act" [("other", Yaml.int 1)] = none ∧
    resolve_section (Yaml.dict [("other", Yaml.int 1)]) "act"
      = (Yaml.dict [], false) ∧
    yaml_to_env_format (Yaml.dict [("other", Yaml.int 1)]) "act"
      = Except.ok "" := by
  exact ⟨rfl, rfl, rfl⟩

/-- Claim C6: an encrypt or decrypt operation that returns failure
leaves the target path either untouched or with the artifact deleted,
and in particular (given the target held no zero-byte file beforehand,
the system's own artifact invariant) no zero-byte file remains there;
the invalid or empty artifact the operation itself wrote is always
removed before failure is reported. -/
theorem c6_no_corrupt_artifact_after_failure (e : EncryptEnv)
    (valid : String → Bool) (dOut : Option String) (preE preD : Option String)
    (hE : is_zero_byte preE = false) (hD : is_zero_byte preD = false) :
    ((encrypt_file e preE).1 = false →
      ((encrypt_file e preE).2 = preE ∨ (encrypt_file e preE).2 = none) ∧
      is_zero_byte (encrypt_file e preE).2 = false) ∧
    ((decrypt_file valid dOut preD).1 = false →
      ((decrypt_file valid dOut preD).2 = preD ∨
        (decrypt_file valid dOut preD).2 = none) ∧
      is_zero_byte (decrypt_file valid dOut preD).2 = false) := by
  constructor
  · intro hf
    rcases he : e.toolOut with _ | out
    · refine ⟨Or.inl ?_, ?_⟩
      · simp [encrypt_file, he]
      · simp [encrypt_file, he, hE]
    · by_cases hout : (out == "") = true
      · refine ⟨Or.inr ?_, ?_⟩
        · simp [encrypt_file, he, hout]
        · simp [encrypt_file, he, hout, is_zero_byte]
      · cases hu : e.updateKeys <;>
          simp [encrypt_file, he, hout, hu] at hf
  · intro hf
    rcases hd : dOut with _ | out
    · refine ⟨Or.inl ?_, ?_⟩
      · simp [decrypt_file, hd]
      · simp [decrypt_file, hd, hD]
    · by_cases hout : (out == "") = true
      · refine ⟨Or.inr ?_, ?_⟩
        · simp [decrypt_file, hd, hout]
        · simp [decrypt_file, hd, hout, is_zero_byte]
      · by_cases hv : valid out = false
        · refine ⟨Or.inr ?_, ?_⟩
          · simp [decrypt_file, hd, hout, hv]
          · simp [decrypt_file, hd, hout, hv, is_zero_byte]
        · simp [decrypt_file, hd, hout, hv] at hf

/-- Witness for C6 at a concrete input: the encrypt tool call fails
(non-zero exit), the pre-existing ciphertext `"ct"` is untouched and is
not a zero-byte file. -/
theorem c6_no_corrupt_artifact_after_failure_witness :
    is_zero_byte (encrypt_file ⟨none, false, true, "k"⟩ (some "ct")).2
      = false :=
  ((c6_no_corrupt_artifact_after_failure ⟨none, false, true, "k"⟩
    (fun _ => true) none (some "ct") (some "pt") (by decide) (by decide)).1
    (by decide)).2

/-- Claim C7: when `sops -e` succeeds with non-empty output and
key-rotation was requested, a failing `_updatekeys_file` call does not
change `_encrypt_file`'s result — it still returns `True` (the source
logs a warning and returns `True` on that path). -/
theorem c7_rotation_failure_keeps_success (e : EncryptEnv)
    (pre : Option String) (out : String)
    (h1 : e.toolOut = some out) (h2 : (out == "") = false)
    (h3 : e.updateKeys = true)
    (_h4 : (updatekeys_file e.ukExit e.ukContent (some out)).1 = false) :
    (encrypt_file e pre).1 = true := by
  simp [encrypt_file, h1, h2, h3]

/-- Witness for C7 at a concrete input: encryption emits `"CT"`,
rotation is requested and fails (`updatekeys` exits non-zero), and the
encrypt result is still success. -/
theorem c7_rotation_failure_keeps_success_witness :
    (encrypt_file ⟨some "CT", true, false, "z"⟩ none).1 = true :=
  c7_rotation_failure_keeps_success ⟨some "CT", true, false, "z"⟩ none "CT"
    rfl (by decide) rfl (by decide)

/-- Claim C8, counterexample: the claim says any value containing
whitespace is wrapped in double quotes, but the code tests only the
space character (`" " in env_value`).  The value `"a\tb"` contains
whitespace (a tab) yet is emitted unquoted. -/
theorem c8_counterexample :
    ("a\tb").data.any Char.isWhitespace = true ∧
    quote_value "a\tb" = "a\tb" ∧
    env_line "key" (Yaml.str "a\tb") = "KEY=a\tb" := by
  decide

/-- Claim C8 as amended: a stringified value containing a space
character (U+0020) or any of double-quote, single-quote, dollar,
backtick, backslash is wrapped in double quotes, and a value containing
none of these is emitted unquoted. -/
theorem c8_amended_space_quoting (k : String) (v : Yaml) :
    (str_has (env_value v) (Char.ofNat 32) = true ∨
        special_chars.any (fun c => str_has (env_value v) c) = true →
      env_line k v = py_upper k ++ "=" ++ ("\"" ++ env_value v ++ "\"")) ∧
    (str_has (env_value v) (Char.ofNat 32) = false ∧
        special_chars.any (fun c => str_has (env_value v) c) = false →
      env_line k v = py_upper k ++ "=" ++ env_value v) := by
  constructor
  · intro h
    unfold env_line quote_value
    rcases h with h | h <;> simp [h]
  · intro h
    unfold env_line quote_value
    simp [h.1, h.2]

/-- Witness for the amended C8 at the claim's own examples: `my secret`
is quoted, `plain123` is not. -/
theorem c8_amended_space_quoting_witness :
    env_line "key" (Yaml.str "my secret") = "KEY=\"my secret\"" ∧
    env_line "key" (Yaml.str "plain123") = "KEY=plain123" := by
  constructor
  · exact ((c8_amended_space_quoting "key" (Yaml.str "my secret")).1
      (Or.inl (by decide))).trans (by decide)
  · exact ((c8_amended_space_quoting "key" (Yaml.str "plain123")).2
      ⟨by decide, by decide⟩).trans (by decide)

/-- Claim C9: converting `{act: {db_user: "admin", count: 3}}` with
section `act` yields exactly `DB_USER=admin\nCOUNT=3` — keys uppercased,
scalars stringified directly, document order, newline-joined, no
trailing newline. -/
theorem c9_act_section_round_trip :
    yaml_to_env_format
      (Yaml.dict [("act",
        Yaml.dict [("db_user", Yaml.str "admin"), ("count", Yaml.int 3)])])
      "act" = Except.ok "DB_USER=admin\nCOUNT=3" := by
  rfl

/-- Claim C10: for every parsed document whose root is not a mapping,
the converter raises a `ValueError` instead of producing output.  The
`ValueError("YAML content must be a dictionary")` raised by the
top-level check is re-raised by the function's blanket
`except Exception` handler wrapped as
`"Error converting YAML to env format: YAML content must be a
dictionary"`, still a `ValueError` and never an output. -/
theorem c10_non_mapping_raises (data : Yaml) (sect : String)
    (h : data.isDict = false) :
    yaml_to_env_format data sect =
      Except.error
        ("Error converting YAML to env format: " ++
          "YAML content must be a dictionary") := by
  unfold yaml_to_env_format yaml_to_env_body
  simp [h]

/-- Witness for C10 at a concrete input: a list-rooted document. -/
theorem c10_non_mapping_raises_witness :
    yaml_to_env_format (Yaml.list []) "act" =
      Except.error
        ("Error converting YAML to env format: " ++
          "YAML content must be a dictionary") :=
  c10_non_mapping_raises (Yaml.list []) "act" rfl
